import Mathlib

/-!
Verification of the `assignment_abci` skill (rounds, payloads, behaviour)
of the academy-learning-service repository, as a shallow embedding in Lean.

The application files (`rounds.py`, `payloads.py`, `behaviours.py`,
`models.py`) are embedded from the source.  The generic round-engine they
instantiate (`abstract_round_abci.base`: `CollectSameUntilThresholdRound`,
`AbciApp`, `DegenerateRound`, the SynchronizedData db accessors) is part of
the repository but its source is not available here; those definitions are
modelled from the specification and are marked as such in their doc
comments.
-/

set_option autoImplicit false

namespace AssignmentAbci

/-- A dynamically-typed Python value, as carried by payload fields.
Python dataclasses do not enforce their type annotations, so every field
of `NewDataPullPayload` can hold `None`, a float, or a string (the IPFS
hash the behaviour assigns).  Floats are modelled as rationals. -/
inductive PyVal where
  | none
  | float (q : ℚ)
  | str (s : String)
  deriving DecidableEq, Repr

/-- The static type annotation written on a payload field
(`payloads.py` lines 34-37 annotate all four fields `Optional[float]`). -/
inductive PyAnnotation where
  | optionalFloat
  deriving DecidableEq, Repr

/-- Whether a runtime value conforms to a static annotation.
`Optional[float]` admits `None` and floats, not strings. -/
def matchesAnnotation : PyAnnotation → PyVal → Bool
  | .optionalFloat, .none => true
  | .optionalFloat, .float _ => true
  | .optionalFloat, .str _ => false

/-- Embeds `NewDataPullPayload` from `payloads.py`: a frozen dataclass extending
`BaseTxPayload` (which supplies `sender`) with four `Optional[float]`
fields, in this declaration order. -/
structure NewDataPullPayload where
  sender : String
  total_holdings : PyVal
  total_value_usd : PyVal
  market_cap_dominance : PyVal
  public_company_holdings_ipfs_hash : PyVal
  deriving DecidableEq, Repr

/-- The annotations of the four non-sender fields, in declaration order
(`payloads.py` lines 34-37). -/
def NewDataPullPayload.fieldAnnotations : List PyAnnotation :=
  [.optionalFloat, .optionalFloat, .optionalFloat, .optionalFloat]

/-- The non-sender fields of a payload, in declaration order. -/
def NewDataPullPayload.fieldValues (p : NewDataPullPayload) : List PyVal :=
  [p.total_holdings, p.total_value_usd, p.market_cap_dominance,
   p.public_company_holdings_ipfs_hash]

/-- The tuple of non-sender fields used for threshold agreement. -/
def NewDataPullPayload.values (p : NewDataPullPayload) :
    PyVal × PyVal × PyVal × PyVal :=
  (p.total_holdings, p.total_value_usd, p.market_cap_dominance,
   p.public_company_holdings_ipfs_hash)

/-- The runtime class of a transaction payload object. -/
inductive PayloadClass where
  | newDataPullPayload
  | otherClass (name : String)
  deriving DecidableEq, Repr

/-- A transaction payload of some class: either the application's
`NewDataPullPayload` or a payload of some other class (only its class
name and sender matter to the round's checks). -/
inductive TxPayload where
  | newDataPull (p : NewDataPullPayload)
  | other (cls : String) (sender : String)
  deriving DecidableEq, Repr

/-- The sender of a transaction payload. -/
def TxPayload.sender : TxPayload → String
  | .newDataPull p => p.sender
  | .other _ s => s

/-- The runtime class of a transaction payload. -/
def TxPayload.cls : TxPayload → PayloadClass
  | .newDataPull _ => .newDataPullPayload
  | .other c _ => .otherClass c

/-- Embeds `Event` from `rounds.py` lines 44-49. -/
inductive Event where
  | ROUND_TIMEOUT
  | NO_MAJORITY
  | DONE
  deriving DecidableEq, Repr

/-- The round kinds (states) of `TestAbciApp` (`rounds.py` lines 69-94). -/
inductive RoundId where
  | NewDataPullRound
  | FinishedNewDataPullRoundRound
  deriving DecidableEq, Repr

/-- Embeds `TestAbciApp.transition_function` (`rounds.py` lines 102-109) as a
lookup from round kind and event to the next round kind; `none` means the
entry is absent from the table. -/
def transition_function : RoundId → Event → Option RoundId
  | .NewDataPullRound, .DONE => some .FinishedNewDataPullRoundRound
  | .NewDataPullRound, .NO_MAJORITY => some .NewDataPullRound
  | .NewDataPullRound, .ROUND_TIMEOUT => some .NewDataPullRound
  | .FinishedNewDataPullRoundRound, _ => none

/-- Embeds `TestAbciApp.final_states` (`rounds.py` line 110). -/
def final_states : List RoundId := [.FinishedNewDataPullRoundRound]

/-- Embeds `TestAbciApp.initial_round_cls` (`rounds.py` line 100). -/
def initial_round_cls : RoundId := .NewDataPullRound

/-- Embeds `TestAbciApp.event_to_timeout` (`rounds.py` line 111): the empty
mapping from events to timeout durations (durations modelled as
rationals). -/
def event_to_timeout : List (Event × ℚ) := []

/-- Look up the timeout duration configured for an event. -/
def timeoutFor (e : Event) : Option ℚ :=
  (event_to_timeout.find? (fun kv => kv.1 = e)).map (·.2)

/-- A value stored in the SynchronizedData db under one key: either a
scalar or a (serialized) participant-to-payload collection. -/
inductive DBValue where
  | scalar (v : PyVal)
  | collection (c : List (String × NewDataPullPayload))
  deriving DecidableEq, Repr

/-- An error raised when reading the SynchronizedData db. -/
inductive DBError where
  | missingKey (key : String)
  | notACollection (key : String)
  deriving DecidableEq, Repr

/-- Modelled from the spec: `SynchronizedData` is a replicated mapping
from string keys to scalar values or participant-to-payload collections
(`db` in `BaseSynchronizedData`, whose source is not under `src/`).
Writes prepend; reads see the most recent write for a key. -/
structure SynchronizedData where
  db : List (String × DBValue)
  deriving DecidableEq, Repr

/-- Read a key from the db, `none` if the key was never set. -/
def SynchronizedData.get (sd : SynchronizedData) (key : String) :
    Option DBValue :=
  (sd.db.find? (fun kv => kv.1 = key)).map (·.2)

/-- Modelled from the spec: `db.get_strict` — "read access to an unset
key fails with a 'missing key' error (distinguished from 'key set but
empty')"; the source of `AbciAppDB.get_strict` is not under `src/`. -/
def SynchronizedData.get_strict (sd : SynchronizedData) (key : String) :
    Except DBError DBValue :=
  match sd.get key with
  | some v => .ok v
  | none => .error (.missingKey key)

/-- Write a key into the db (a new version; reads see the newest). -/
def SynchronizedData.set (sd : SynchronizedData) (key : String)
    (v : DBValue) : SynchronizedData :=
  ⟨(key, v) :: sd.db⟩

/-- Modelled from the spec: `CollectionRound.deserialize_collection`
turns a stored collection back into the participant-to-payload mapping;
its source is not under `src/`.  A scalar is not a collection. -/
def deserialize_collection (key : String) (v : DBValue) :
    Except DBError (List (String × NewDataPullPayload)) :=
  match v with
  | .collection c => .ok c
  | .scalar _ => .error (.notACollection key)

/-- Embeds `SynchronizedData._get_deserialized` (`rounds.py` lines 58-61):
strictly get a collection and return it deserialized. -/
def SynchronizedData._get_deserialized (sd : SynchronizedData)
    (key : String) : Except DBError (List (String × NewDataPullPayload)) :=
  match sd.get_strict key with
  | .ok v => deserialize_collection key v
  | .error e => .error e

/-- Embeds `SynchronizedData.participant_to_data_round` (`rounds.py` lines
63-66): the agent-to-payload mapping for the data-pull round. -/
def SynchronizedData.participant_to_data_round (sd : SynchronizedData) :
    Except DBError (List (String × NewDataPullPayload)) :=
  sd._get_deserialized "participant_to_data_round"

namespace NewDataPullRound

/-- Embeds `NewDataPullRound.payload_class` (`rounds.py` line 72). -/
def payload_class : PayloadClass := .newDataPullPayload

/-- Embeds `NewDataPullRound.done_event` (`rounds.py` line 74). -/
def done_event : Event := .DONE

/-- Embeds `NewDataPullRound.no_majority_event` (`rounds.py` line 75). -/
def no_majority_event : Event := .NO_MAJORITY

/-- Embeds `NewDataPullRound.collection_key` (`rounds.py` line 78). -/
def collection_key : String := "participant_to_data_round"

/-- Embeds `NewDataPullRound.selection_key` (`rounds.py` lines 83-88): the
SynchronizedData attributes receiving the selected payload's fields, in
the payload's field declaration order. -/
def selection_key : List String :=
  ["total_holdings", "total_value_usd", "market_cap_dominance",
   "public_company_holdings_ipfs_hash"]

end NewDataPullRound

/-- An error raised by a round when processing a submitted payload. -/
inductive SubmitError where
  | duplicateSubmission (sender : String)
  | wrongPayloadType (cls : PayloadClass)
  | degenerateRoundError
  deriving DecidableEq, Repr

/-- The mutable state of one active `NewDataPullRound` instance:
the accumulated sender-to-payload collection plus the participant count
and the configured agreement threshold. -/
structure RoundState where
  collection : List (String × NewDataPullPayload)
  nb_participants : ℕ
  threshold : ℕ
  deriving DecidableEq, Repr

/-- A freshly entered round with an empty collection. -/
def RoundState.init (nb_participants threshold : ℕ) : RoundState :=
  ⟨[], nb_participants, threshold⟩

/-- Modelled from the spec: `submit(payload)` of the collection round
(`CollectSameUntilThresholdRound`, source not under `src/`) — "fails
with 'duplicate submission' if that participant already submitted for
this round, 'wrong payload type' if the payload class mismatches the
round's expected class"; otherwise records the payload under the sender. -/
def submit (st : RoundState) (p : TxPayload) :
    Except SubmitError RoundState :=
  if st.collection.any (fun kv => kv.1 = p.sender) then
    .error (.duplicateSubmission p.sender)
  else
    match p with
    | .newDataPull q =>
        .ok { st with collection := st.collection ++ [(q.sender, q)] }
    | .other c _ => .error (.wrongPayloadType (.otherClass c))

/-- The number of collected payloads whose non-sender field tuple equals
`v`. -/
def countVotes (c : List (String × NewDataPullPayload))
    (v : PyVal × PyVal × PyVal × PyVal) : ℕ :=
  (c.filter (fun kv => kv.2.values = v)).length

/-- The largest multiplicity among the collected field tuples (0 when
nothing has been collected). -/
def maxVoteCount (st : RoundState) : ℕ :=
  (st.collection.map (fun kv => countVotes st.collection kv.2.values)).foldr
    max 0

/-- The first collected payload whose field tuple has reached the
threshold, if any (deterministic pick of the most-submitted value). -/
def thresholdPayload (st : RoundState) : Option NewDataPullPayload :=
  (st.collection.find? (fun kv =>
    decide (st.threshold ≤ countVotes st.collection kv.2.values))).map (·.2)

/-- Write the selected payload's non-sender fields into SynchronizedData
under the selection keys, pairwise in declaration order, after recording
the collection under the collection key. -/
def writeSelection (sd : SynchronizedData) (st : RoundState)
    (p : NewDataPullPayload) : SynchronizedData :=
  ((NewDataPullRound.selection_key.zip p.fieldValues).foldl
    (fun s kv => s.set kv.1 (.scalar kv.2))
    (sd.set NewDataPullRound.collection_key (.collection st.collection)))

/-- Modelled from the spec: `end_block()` of
`CollectSameUntilThresholdRound` (source not under `src/`) — if some
value's multiplicity reaches the threshold, write the selected payload's
fields under the selection keys and return the *done* event; if no value
can reach the threshold even with all remaining participants voting,
return the *no-majority* event with SynchronizedData unmodified;
otherwise the round stays open (`none`). -/
def end_block (st : RoundState) (sd : SynchronizedData) :
    Option (Event × SynchronizedData) :=
  match thresholdPayload st with
  | some p => some (NewDataPullRound.done_event, writeSelection sd st p)
  | none =>
      if maxVoteCount st + (st.nb_participants - st.collection.length)
          < st.threshold then
        some (NewDataPullRound.no_majority_event, sd)
      else
        none

/-- Modelled from the spec: a degenerate (final) round "never executes
further `submit`" — any submission after entering it fails with a
protocol error (`DegenerateRound`, source not under `src/`). -/
def degenerate_submit (_p : TxPayload) : Except SubmitError RoundState :=
  .error .degenerateRoundError

/-- Modelled from the spec: a degenerate round never executes
`end_block`; it resolves to no event. -/
def degenerate_end_block (_sd : SynchronizedData) :
    Option (Event × SynchronizedData) := none

/-- The resulting round state after attempting a submission: on error
the round's collected state is unchanged. -/
def submitOrKeep (st : RoundState) (p : TxPayload) : RoundState :=
  match submit st p with
  | .ok st' => st'
  | .error _ => st

/-- The structured API response consumed by the behaviour
(`behaviours.py` lines 87-89 read these three keys). -/
structure ApiResponse where
  total_holdings : PyVal
  total_value_usd : PyVal
  market_cap_dominance : PyVal
  deriving DecidableEq, Repr

/-- One externally visible step of `NewDataPullBehaviour.async_act`. -/
inductive BStep where
  | fetchApiResponse
  | storeResponseToIpfs
  | broadcastPayload (p : TxPayload)
  | waitUntilRoundEnd
  | setDone
  deriving DecidableEq, Repr

/-- The payload `NewDataPullBehaviour.async_act` constructs
(`behaviours.py` lines 85-91): the three response fields plus the string
hash returned by the IPFS store. -/
def behaviourPayload (sender : String) (r : ApiResponse)
    (ipfsHash : String) : NewDataPullPayload :=
  ⟨sender, r.total_holdings, r.total_value_usd, r.market_cap_dominance,
   .str ipfsHash⟩

/-- Embeds `NewDataPullBehaviour.async_act` (`behaviours.py` lines 69-98) as
the trace of its suspendable steps, in source order: fetch the API
response, store it to IPFS, broadcast the constructed payload
(`send_a2a_transaction`), suspend until the round ends
(`wait_until_round_end`), then `set_done`. -/
def async_act (sender : String) (r : ApiResponse) (ipfsHash : String) :
    List BStep :=
  [.fetchApiResponse, .storeResponseToIpfs,
   .broadcastPayload (.newDataPull (behaviourPayload sender r ipfsHash)),
   .waitUntilRoundEnd, .setDone]

/-- The transition relation induced by `TestAbciApp.transition_function`
(`rounds.py` lines 102-109): one constructor per entry of the table. -/
inductive Step : RoundId → Event → RoundId → Prop where
  | done_from_pull :
      Step .NewDataPullRound .DONE .FinishedNewDataPullRoundRound
  | no_majority_loop :
      Step .NewDataPullRound .NO_MAJORITY .NewDataPullRound
  | timeout_loop :
      Step .NewDataPullRound .ROUND_TIMEOUT .NewDataPullRound

/-- The AbciApp's top-level mutable state: the current round kind and
whether the run has terminated in a final state. -/
structure AppState where
  current : RoundId
  terminated : Bool
  deriving DecidableEq, Repr

/-- Modelled from the spec: `process_event` looks up
`transition_function[current_round_kind][event]`; on success the app
moves to the next round and, if that round is in `final_states`, marks
the run terminated.  An absent entry is a configuration error (`none`). -/
def process_event (app : AppState) (e : Event) : Option AppState :=
  match transition_function app.current e with
  | some r => some ⟨r, decide (r ∈ final_states)⟩
  | none => none

/-- Every member of a list of naturals is bounded by the fold of `max`
over it. -/
theorem le_foldr_max (l : List ℕ) (x : ℕ) (hx : x ∈ l) :
    x ≤ l.foldr max 0 := by
  induction l with
  | nil => cases hx
  | cons a t ih =>
      rcases List.mem_cons.mp hx with h | h
      · subst h; exact le_max_left _ _
      · exact le_trans (ih h) (le_max_right _ _)

/-- The vote count of any collected entry's tuple is at most the maximal
vote count. -/
theorem countVotes_le_maxVoteCount (st : RoundState)
    (kv : String × NewDataPullPayload) (h : kv ∈ st.collection) :
    countVotes st.collection kv.2.values ≤ maxVoteCount st :=
  le_foldr_max _ _ (List.mem_map_of_mem _ h)

/-- The agreed field tuple used in the concrete scenarios. -/
def tupleV1 : PyVal × PyVal × PyVal × PyVal :=
  (.float 1, .float 2, .float 3, .str "QmHash")

/-- A payload carrying the agreed tuple, from the given sender. -/
def payloadV1 (sender : String) : NewDataPullPayload :=
  ⟨sender, .float 1, .float 2, .float 3, .str "QmHash"⟩

/-- A payload carrying a different tuple, from the given sender. -/
def payloadV2 (sender : String) : NewDataPullPayload :=
  ⟨sender, .none, .none, .none, .str "QmOther"⟩

/-- A third, distinct payload tuple, from the given sender. -/
def payloadV3 (sender : String) : NewDataPullPayload :=
  ⟨sender, .float 9, .none, .none, .str "QmThird"⟩

/-- Scenario A (spec §8): 4 participants, threshold 3; three senders
submitted the agreed tuple and one a different tuple. -/
def scenarioA : RoundState :=
  ⟨[("P1", payloadV1 "P1"), ("P2", payloadV1 "P2"),
    ("P3", payloadV1 "P3"), ("P4", payloadV2 "P4")], 4, 3⟩

/-- Scenario B (spec §8): 4 participants, threshold 3; the four
submissions split 2/1/1 among three distinct tuples. -/
def scenarioB : RoundState :=
  ⟨[("P1", payloadV1 "P1"), ("P2", payloadV1 "P2"),
    ("P3", payloadV2 "P3"), ("P4", payloadV3 "P4")], 4, 3⟩

/-- After `writeSelection`, the i-th selection key holds the i-th
declared payload field. -/
theorem writeSelection_get (sd : SynchronizedData) (st : RoundState)
    (p : NewDataPullPayload) (i : Fin 4) :
    (writeSelection sd st p).get
        (NewDataPullRound.selection_key.getD i.1 "") =
      some (.scalar (p.fieldValues.getD i.1 .none)) := by
  fin_cases i <;> rfl

end AssignmentAbci

namespace AssignmentAbci

/-- C4: In `TestAbciApp`'s transition function, `NO_MAJORITY` and
`ROUND_TIMEOUT` from `NewDataPullRound` are self-loops: both look-ups
select `NewDataPullRound` itself as the next round, so after a round
timeout the app re-enters the same round kind. -/
theorem C4_no_majority_and_timeout_self_loops :
    transition_function .NewDataPullRound .NO_MAJORITY =
      some .NewDataPullRound ∧
    transition_function .NewDataPullRound .ROUND_TIMEOUT =
      some .NewDataPullRound := by
  exact ⟨rfl, rfl⟩

/-- C10: `TestAbciApp.event_to_timeout` is the empty mapping, so no event
— including `ROUND_TIMEOUT` — has a timeout duration, even though the
transition function declares a `ROUND_TIMEOUT` self-loop for
`NewDataPullRound`; no round time budget is configured. -/
theorem C10_event_to_timeout_empty :
    event_to_timeout = [] ∧
    (∀ e : Event, timeoutFor e = none) ∧
    transition_function .NewDataPullRound .ROUND_TIMEOUT =
      some .NewDataPullRound := by
  refine ⟨rfl, ?_, rfl⟩
  intro e
  cases e <;> rfl

/-- C1: For every round state of `NewDataPullRound` in which at least a
threshold of distinct senders have submitted identical non-sender field
tuples, `end_block` returns the done event `Event.DONE` and writes the
selected payload's four fields into SynchronizedData under the selection
keys (`total_holdings`, `total_value_usd`, `market_cap_dominance`,
`public_company_holdings_ipfs_hash`), the i-th selection key receiving
the i-th field in `NewDataPullPayload` declaration order. -/
theorem C1_threshold_reached_done_and_selection_written
    (st : RoundState) (sd : SynchronizedData)
    (v : PyVal × PyVal × PyVal × PyVal)
    (_hsenders : (st.collection.map Prod.fst).Nodup)
    (hpos : 0 < st.threshold)
    (hv : st.threshold ≤ countVotes st.collection v) :
    ∃ p : NewDataPullPayload,
      thresholdPayload st = some p ∧
      st.threshold ≤ countVotes st.collection p.values ∧
      end_block st sd = some (Event.DONE, writeSelection sd st p) ∧
      ∀ i : Fin 4,
        (writeSelection sd st p).get
            (NewDataPullRound.selection_key.getD i.1 "") =
          some (.scalar (p.fieldValues.getD i.1 .none)) := by
  have hlen : 0 <
      (st.collection.filter (fun kv => kv.2.values = v)).length :=
    lt_of_lt_of_le hpos hv
  obtain ⟨kv, hkv⟩ := List.exists_mem_of_length_pos hlen
  obtain ⟨hmem, hval⟩ := List.mem_filter.mp hkv
  have hvv : kv.2.values = v := by exact_mod_cast of_decide_eq_true hval
  have hsome : (st.collection.find? (fun kv =>
      decide (st.threshold ≤ countVotes st.collection kv.2.values))).isSome := by
    rw [List.find?_isSome]
    exact ⟨kv, hmem, by rw [hvv]; exact decide_eq_true hv⟩
  obtain ⟨kv₀, hfind⟩ := Option.isSome_iff_exists.mp hsome
  have hpred : st.threshold ≤ countVotes st.collection kv₀.2.values := by
    have h := List.find?_some hfind
    simpa using h
  have hthr : thresholdPayload st = some kv₀.2 := by
    unfold thresholdPayload
    rw [hfind]
    rfl
  refine ⟨kv₀.2, hthr, hpred, ?_, fun i => writeSelection_get sd st kv₀.2 i⟩
  unfold end_block
  rw [hthr]
  rfl

/-- Witness for C1: Scenario A — 4 participants, threshold 3, three
senders submit the same field tuple and one a different tuple; the
hypotheses hold and `end_block` concludes with the done event. -/
theorem C1_witness :
    ((scenarioA.collection.map Prod.fst).Nodup ∧ 0 < scenarioA.threshold ∧
      scenarioA.threshold ≤ countVotes scenarioA.collection tupleV1) ∧
    (∃ p : NewDataPullPayload,
      thresholdPayload scenarioA = some p ∧
      scenarioA.threshold ≤ countVotes scenarioA.collection p.values ∧
      end_block scenarioA ⟨[]⟩ =
        some (Event.DONE, writeSelection ⟨[]⟩ scenarioA p) ∧
      ∀ i : Fin 4,
        (writeSelection ⟨[]⟩ scenarioA p).get
            (NewDataPullRound.selection_key.getD i.1 "") =
          some (.scalar (p.fieldValues.getD i.1 .none))) :=
  ⟨⟨by decide, by decide, by decide⟩,
    C1_threshold_reached_done_and_selection_written scenarioA ⟨[]⟩ tupleV1
      (by decide) (by decide) (by decide)⟩

/-- C2: When no value can reach the threshold even if all remaining
participants voted for it, `end_block` returns the no-majority event
`Event.NO_MAJORITY` and leaves SynchronizedData unmodified (the returned
store is the input store itself). -/
theorem C2_unreachable_majority_no_op
    (st : RoundState) (sd : SynchronizedData)
    (h : maxVoteCount st + (st.nb_participants - st.collection.length)
      < st.threshold) :
    end_block st sd = some (Event.NO_MAJORITY, sd) := by
  have hthr : thresholdPayload st = none := by
    unfold thresholdPayload
    rw [List.find?_eq_none.mpr]
    · rfl
    · intro kv hkv
      simp only [decide_eq_true_eq]
      intro hle
      have hmax := countVotes_le_maxVoteCount st kv hkv
      omega
  unfold end_block
  rw [hthr, if_pos h]
  rfl

/-- Witness for C2: Scenario B — 4 participants, threshold 3, payloads
split 2/1/1 among three tuples: the hypothesis holds and `end_block`
returns no-majority with the store unchanged. -/
theorem C2_witness :
    (maxVoteCount scenarioB +
        (scenarioB.nb_participants - scenarioB.collection.length)
      < scenarioB.threshold) ∧
    end_block scenarioB ⟨[]⟩ = some (Event.NO_MAJORITY, ⟨[]⟩) :=
  ⟨by decide, C2_unreachable_majority_no_op scenarioB ⟨[]⟩ (by decide)⟩

/-- C3: A second submission from a sender that already submitted in the
current round fails with a duplicate-submission error and leaves the
collected state unchanged (same collection length); a payload whose
class is not the round's `payload_class` (submitted by a sender not yet
collected, so the duplicate check does not fire first) fails with a
wrong-payload-type error and also leaves the collection unchanged. -/
theorem C3_duplicate_and_wrong_class_rejected
    (st : RoundState) (p q : TxPayload)
    (hdup : st.collection.any (fun kv => kv.1 = p.sender) = true)
    (hcls : q.cls ≠ NewDataPullRound.payload_class)
    (hfresh : st.collection.any (fun kv => kv.1 = q.sender) = false) :
    submit st p = .error (.duplicateSubmission p.sender) ∧
    (submitOrKeep st p).collection.length = st.collection.length ∧
    submit st q = .error (.wrongPayloadType q.cls) ∧
    (submitOrKeep st q).collection.length = st.collection.length := by
  have hp : submit st p = .error (.duplicateSubmission p.sender) := by
    unfold submit
    rw [hdup]
    rfl
  have hq : submit st q = .error (.wrongPayloadType q.cls) := by
    unfold submit
    rw [hfresh]
    cases q with
    | newDataPull r => exact absurd rfl hcls
    | other c s => rfl
  refine ⟨hp, ?_, hq, ?_⟩
  · unfold submitOrKeep
    rw [hp]
  · unfold submitOrKeep
    rw [hq]

/-- Witness for C3: in Scenario A's round state, sender `P1` submitting
again is rejected as a duplicate, and a payload of a foreign class from
fresh sender `P9` is rejected as wrong payload type; the collection
length stays 4 in both cases. -/
theorem C3_witness :
    (scenarioA.collection.any
        (fun kv => kv.1 = (TxPayload.newDataPull (payloadV2 "P1")).sender) =
      true ∧
     (TxPayload.other "SomeOtherPayload" "P9").cls ≠
       NewDataPullRound.payload_class ∧
     scenarioA.collection.any
        (fun kv => kv.1 = (TxPayload.other "SomeOtherPayload" "P9").sender) =
      false) ∧
    (submit scenarioA (.newDataPull (payloadV2 "P1")) =
      .error (.duplicateSubmission
        (TxPayload.newDataPull (payloadV2 "P1")).sender) ∧
     (submitOrKeep scenarioA (.newDataPull (payloadV2 "P1"))).collection.length =
       scenarioA.collection.length ∧
     submit scenarioA (.other "SomeOtherPayload" "P9") =
       .error (.wrongPayloadType (TxPayload.other "SomeOtherPayload" "P9").cls) ∧
     (submitOrKeep scenarioA (.other "SomeOtherPayload" "P9")).collection.length =
       scenarioA.collection.length) :=
  ⟨⟨by decide, by decide, by decide⟩,
    C3_duplicate_and_wrong_class_rejected scenarioA
      (.newDataPull (payloadV2 "P1")) (.other "SomeOtherPayload" "P9")
      (by decide) (by decide) (by decide)⟩

/-- C5: `FinishedNewDataPullRoundRound` is absorbing: it is a final
state, its transition map is empty (no event leads out, so
`process_event` fails on every event there), a degenerate round accepts
no submission (every `submit` fails with a protocol error) and executes
no `end_block`; entering it from `NewDataPullRound` on `DONE` marks the
run terminated. -/
theorem C5_final_round_absorbing :
    (∀ e : Event,
      transition_function .FinishedNewDataPullRoundRound e = none) ∧
    RoundId.FinishedNewDataPullRoundRound ∈ final_states ∧
    (∀ p : TxPayload,
      degenerate_submit p = .error .degenerateRoundError) ∧
    (∀ sd : SynchronizedData, degenerate_end_block sd = none) ∧
    (∀ e : Event,
      process_event ⟨.FinishedNewDataPullRoundRound, true⟩ e = none) ∧
    process_event ⟨.NewDataPullRound, false⟩ .DONE =
      some ⟨.FinishedNewDataPullRoundRound, true⟩ := by
  refine ⟨?_, by decide, fun p => rfl, fun sd => rfl, ?_, rfl⟩
  · intro e; cases e <;> rfl
  · intro e; cases e <;> rfl

/-- C6: the transition lookup is deterministic — any two `Step`
derivations from the same round kind and event reach the same next
round kind, which is exactly what `transition_function` returns, and
`process_event` yields that same next round kind on both of two runs
with identical inputs (whatever the terminated flag). -/
theorem C6_process_event_deterministic
    (r : RoundId) (e : Event) (r1 r2 : RoundId)
    (h1 : Step r e r1) (h2 : Step r e r2) :
    r1 = r2 ∧ transition_function r e = some r1 ∧
    (∀ b : Bool, process_event ⟨r, b⟩ e =
      some ⟨r1, decide (r1 ∈ final_states)⟩) := by
  cases h1 <;> cases h2 <;> exact ⟨rfl, rfl, fun b => rfl⟩

/-- Witness for C6: two derivations of the `DONE` transition from
`NewDataPullRound` agree on the next round kind. -/
theorem C6_witness :
    RoundId.FinishedNewDataPullRoundRound =
      RoundId.FinishedNewDataPullRoundRound ∧
    transition_function .NewDataPullRound .DONE =
      some .FinishedNewDataPullRoundRound ∧
    (∀ b : Bool, process_event ⟨.NewDataPullRound, b⟩ .DONE =
      some ⟨.FinishedNewDataPullRoundRound,
        decide (RoundId.FinishedNewDataPullRoundRound ∈ final_states)⟩) :=
  C6_process_event_deterministic .NewDataPullRound .DONE
    .FinishedNewDataPullRoundRound .FinishedNewDataPullRoundRound
    Step.done_from_pull Step.done_from_pull

/-- C7: reading `participant_to_data_round` on a store where the key was
never set fails with the missing-key error (the strict get raises rather
than defaulting), while a store whose key holds an empty collection
deserializes to `.ok []` — the two outcomes are distinct. -/
theorem C7_unset_key_strict_error
    (sd sd' : SynchronizedData)
    (h : sd.get "participant_to_data_round" = none)
    (h' : sd'.get "participant_to_data_round" = some (.collection [])) :
    sd.participant_to_data_round =
      .error (.missingKey "participant_to_data_round") ∧
    sd'.participant_to_data_round = .ok [] ∧
    (Except.error (DBError.missingKey "participant_to_data_round") :
        Except DBError (List (String × NewDataPullPayload))) ≠ .ok [] := by
  refine ⟨?_, ?_, by intro hco; cases hco⟩
  · unfold SynchronizedData.participant_to_data_round
      SynchronizedData._get_deserialized SynchronizedData.get_strict
    rw [h]
  · unfold SynchronizedData.participant_to_data_round
      SynchronizedData._get_deserialized SynchronizedData.get_strict
    rw [h']
    rfl

/-- Witness for C7: the empty store has the key unset; a store mapping
the key to an empty collection reads back `.ok []`. -/
theorem C7_witness :
    ((⟨[]⟩ : SynchronizedData).get "participant_to_data_round" = none ∧
     (⟨[("participant_to_data_round", .collection [])]⟩ :
        SynchronizedData).get "participant_to_data_round" =
       some (.collection [])) ∧
    ((⟨[]⟩ : SynchronizedData).participant_to_data_round =
      .error (.missingKey "participant_to_data_round") ∧
     (⟨[("participant_to_data_round", .collection [])]⟩ :
        SynchronizedData).participant_to_data_round = .ok [] ∧
     (Except.error (DBError.missingKey "participant_to_data_round") :
        Except DBError (List (String × NewDataPullPayload))) ≠ .ok []) :=
  ⟨⟨by decide, by decide⟩,
    C7_unset_key_strict_error ⟨[]⟩
      ⟨[("participant_to_data_round", .collection [])]⟩
      (by decide) (by decide)⟩

/-- C8: `async_act` performs its steps in the fixed source order —
fetch the API response, store it to IPFS, broadcast the payload built
from the response fields and the IPFS hash, wait until the round ends,
then set done; the broadcast (index 2) precedes the wait (index 3), and
`setDone` occurs nowhere before the wait for round resolution. -/
theorem C8_async_act_step_order
    (sender : String) (r : ApiResponse) (ipfsHash : String) :
    async_act sender r ipfsHash =
      [.fetchApiResponse, .storeResponseToIpfs,
       .broadcastPayload (.newDataPull (behaviourPayload sender r ipfsHash)),
       .waitUntilRoundEnd, .setDone] ∧
    (async_act sender r ipfsHash)[2]? =
      some (.broadcastPayload
        (.newDataPull (behaviourPayload sender r ipfsHash))) ∧
    (async_act sender r ipfsHash)[3]? = some .waitUntilRoundEnd ∧
    (async_act sender r ipfsHash)[4]? = some .setDone ∧
    ((async_act sender r ipfsHash).take 4).count .setDone = 0 ∧
    ((async_act sender r ipfsHash).take 3).count .waitUntilRoundEnd = 0 :=
  ⟨rfl, rfl, rfl, rfl, rfl, rfl⟩

/-- C9: payload construction is total over the four Optional non-sender
fields — any values (including all `None`) build a payload whose class
passes `NewDataPullRound`'s payload-class check and is accepted by a
fresh round; the behaviour assigns the string IPFS hash to
`public_company_holdings_ipfs_hash` although its annotation is
`Optional[float]` (the value does not conform to the annotation), and no
validation rejects the submission. -/
theorem C9_payload_totality_and_annotation_mismatch
    (s ipfsHash : String) (a b c d : PyVal) (r : ApiResponse) (n t : ℕ) :
    (TxPayload.newDataPull ⟨s, a, b, c, d⟩).cls =
      NewDataPullRound.payload_class ∧
    (∃ st', submit (RoundState.init n t) (.newDataPull ⟨s, a, b, c, d⟩) =
      .ok st') ∧
    (behaviourPayload s r ipfsHash).public_company_holdings_ipfs_hash =
      .str ipfsHash ∧
    NewDataPullPayload.fieldAnnotations.getD 3 .optionalFloat =
      .optionalFloat ∧
    matchesAnnotation .optionalFloat (.str ipfsHash) = false ∧
    (∃ st', submit (RoundState.init n t)
      (.newDataPull (behaviourPayload s r ipfsHash)) = .ok st') :=
  ⟨rfl, ⟨_, rfl⟩, rfl, rfl, rfl, ⟨_, rfl⟩⟩

end AssignmentAbci
